import Mathlib

/-!
Shallow embedding of src/liquibase_cli.py (LiquibaseDB), a schema-migration
CLI built on SQLite.

Modelling conventions:
* The SQLite database shared by all commands is modelled by DBState.
  The two bookkeeping tables DATABASECHANGELOG and DATABASECHANGELOGLOCK are
  modelled structurally (a list of ledger rows, and the three columns of the
  singleton lock row).  Every other SQL statement issued through
  DatabaseManager.execute_sql is recorded in a journal of committed commands
  (schema_log): execute_sql calls conn.commit() after each single statement,
  so in the source each statement's effect is durable as soon as it runs.
* Python exceptions raised while executing a change (the ValueError for an
  unknown change kind, raised before any SQL is issued) surface as Option:
  execute_change returns none exactly where _execute_change raises.
  The try/except blocks of execute_migration / rollback_migration catch the
  exception and return False, keeping whatever state was already committed.
* hashlib.md5(...).hexdigest() is a fixed deterministic function of its input
  string; the digest step is modelled as the identity on that input, so equal
  inputs give equal fingerprints exactly as for real MD5.  No theorem below
  relies on distinct inputs having distinct digests except where the inputs
  are concretely distinct short strings (where real MD5 also differs).
* json.dumps(self.changes) is a fixed deterministic serialization of the
  parsed change list; it is modelled by json_dumps_changes, a deterministic
  stand-in rendering.  Theorems use only that it is a function of the list.
* datetime.now() is passed in as an explicit `now` parameter.
-/

/-- The optional `constraints` dictionary of a column specification, as read
by MigrationExecutor._create_table (keys primaryKey, autoIncrement, nullable,
unique; absent keys behave as falsy / non-False). -/
structure Constraints where
  primaryKey : Bool := false
  autoIncrement : Bool := false
  nullable : Option Bool := none
  unique : Bool := false
deriving DecidableEq

/-- A column specification dictionary (keys name, type, optional constraints,
optional defaultValue) as consumed by _create_table and _add_column. -/
structure ColumnDef where
  name : String
  type : String
  constraints : Constraints := {}
  defaultValue : Option String := none
deriving DecidableEq

/-- A single change dictionary: one kind tag mapped to its parameters, the
kinds dispatched by MigrationExecutor._execute_change.  `unknown` stands for
any change whose kind tag is none of the eight handled ones; _execute_change
raises ValueError on it before issuing any SQL. -/
inductive Change where
  | createTable (tableName : String) (columns : List ColumnDef)
  | addColumn (tableName : String) (column : ColumnDef)
  | dropColumn (tableName : String) (columnName : String)
  | renameColumn (tableName : String) (oldColumnName : String) (newColumnName : String)
  | createIndex (indexName : String) (tableName : String) (columns : List String)
  | dropTable (tableName : String)
  | sql (sql : String)
  | insert (tableName : String) (columns : List (String × String))
  | unknown (kind : String)
deriving DecidableEq

/-- The Migration model class: id, author, description, changes, rollback
(defaulting to the empty list).  The derived checksum field is modelled by
the function calculate_checksum below. -/
structure Migration where
  id : String
  author : String
  description : String
  changes : List Change
  rollback : List Change := []
deriving DecidableEq

/-- One committed SQL statement together with its bound parameters, as passed
to DatabaseManager.execute_sql (which commits after every statement). -/
structure SqlCmd where
  sql : String
  params : List String
deriving DecidableEq

/-- One row of the DATABASECHANGELOG table (the columns the source writes in
execute_migration; comments, tag, contexts, labels, deployment_id are left
NULL by the INSERT and are omitted). -/
structure LedgerRow where
  id : String
  author : String
  filename : String
  date_executed : Nat
  order_executed : Nat
  exec_type : String
  md5sum : String
  description : String
deriving DecidableEq

/-- The whole backing store: the changelog table, the singleton
DATABASECHANGELOGLOCK row (columns locked, lockgranted, lockedby), and the
journal of all other committed statements. -/
structure DBState where
  changelog : List LedgerRow
  lock_locked : Bool
  lock_granted : Option Nat
  lock_holder : Option String
  schema_log : List SqlCmd
deriving DecidableEq

/-- A fresh database right after DatabaseManager._init_changelog_table:
empty changelog, lock row inserted with locked = 0. -/
def init_db : DBState :=
  { changelog := []
    lock_locked := false
    lock_granted := none
    lock_holder := none
    schema_log := [] }

/-- Deterministic rendering of one column specification, part of the
stand-in for json.dumps (see module comment). -/
def serialize_column (c : ColumnDef) : String :=
  c.name ++ ":" ++ c.type ++ ":" ++
    (if c.constraints.primaryKey then "pk" else "") ++
    (if c.constraints.autoIncrement then "ai" else "") ++
    (match c.constraints.nullable with
      | some true => "n1"
      | some false => "n0"
      | none => "") ++
    (if c.constraints.unique then "u" else "") ++
    (match c.defaultValue with
      | some v => ":d=" ++ v
      | none => "")

/-- Deterministic rendering of one change, part of the stand-in for
json.dumps (see module comment). -/
def serialize_change : Change → String
  | .createTable t cols =>
      "createTable(" ++ t ++ ";" ++ String.intercalate "," (cols.map serialize_column) ++ ")"
  | .addColumn t col => "addColumn(" ++ t ++ ";" ++ serialize_column col ++ ")"
  | .dropColumn t c => "dropColumn(" ++ t ++ ";" ++ c ++ ")"
  | .renameColumn t o n => "renameColumn(" ++ t ++ ";" ++ o ++ ";" ++ n ++ ")"
  | .createIndex i t cols =>
      "createIndex(" ++ i ++ ";" ++ t ++ ";" ++ String.intercalate "," cols ++ ")"
  | .dropTable t => "dropTable(" ++ t ++ ")"
  | .sql s => "sql(" ++ s ++ ")"
  | .insert t cols =>
      "insert(" ++ t ++ ";" ++
        String.intercalate "," (cols.map (fun p => p.1 ++ "=" ++ p.2)) ++ ")"
  | .unknown k => "unknown(" ++ k ++ ")"

/-- Stand-in for json.dumps(self.changes): a fixed deterministic serialization
of the change list (see module comment). -/
def json_dumps_changes (cs : List Change) : String :=
  "[" ++ String.intercalate ", " (cs.map serialize_change) ++ "]"

/-- Migration._calculate_checksum: the digest input is the bare concatenation
of id, author and the serialized change list (the f-string
id + author + json.dumps(changes)); the MD5 hex step is modelled as the
identity on this input (see module comment). -/
def calculate_checksum (m : Migration) : String :=
  m.id ++ m.author ++ json_dumps_changes m.changes

/-- Column definition string built by MigrationExecutor._create_table:
name, type, then PRIMARY KEY / AUTOINCREMENT / NOT NULL (only when
nullable == False) / UNIQUE / DEFAULT, in that order. -/
def column_def_sql (col : ColumnDef) : String :=
  let d := col.name ++ " " ++ col.type
  let d := if col.constraints.primaryKey then d ++ " PRIMARY KEY" else d
  let d := if col.constraints.autoIncrement then d ++ " AUTOINCREMENT" else d
  let d := if col.constraints.nullable = some false then d ++ " NOT NULL" else d
  let d := if col.constraints.unique then d ++ " UNIQUE" else d
  match col.defaultValue with
  | some v => d ++ " DEFAULT " ++ v
  | none => d

/-- SQL built by MigrationExecutor._create_table. -/
def create_table_sql (tableName : String) (columns : List ColumnDef) : String :=
  "CREATE TABLE " ++ tableName ++ " (" ++
    String.intercalate ", " (columns.map column_def_sql) ++ ")"

/-- SQL built by MigrationExecutor._add_column (only name, type and
defaultValue of the column are used there). -/
def add_column_sql (tableName : String) (column : ColumnDef) : String :=
  let d := column.name ++ " " ++ column.type
  let d := match column.defaultValue with
    | some v => d ++ " DEFAULT " ++ v
    | none => d
  "ALTER TABLE " ++ tableName ++ " ADD COLUMN " ++ d

/-- SQL built by MigrationExecutor._drop_column. -/
def drop_column_sql (tableName : String) (columnName : String) : String :=
  "ALTER TABLE " ++ tableName ++ " DROP COLUMN " ++ columnName

/-- SQL built by MigrationExecutor._rename_column. -/
def rename_column_sql (tableName : String) (oldName : String) (newName : String) : String :=
  "ALTER TABLE " ++ tableName ++ " RENAME COLUMN " ++ oldName ++ " TO " ++ newName

/-- SQL built by MigrationExecutor._create_index (columns are the name fields
of the column dictionaries). -/
def create_index_sql (indexName : String) (tableName : String) (columns : List String) : String :=
  "CREATE INDEX " ++ indexName ++ " ON " ++ tableName ++ " (" ++
    String.intercalate ", " columns ++ ")"

/-- SQL built by MigrationExecutor._drop_table. -/
def drop_table_sql (tableName : String) : String :=
  "DROP TABLE IF EXISTS " ++ tableName

/-- SQL built by MigrationExecutor._insert_data (parameter placeholders, the
values are bound as parameters). -/
def insert_sql (tableName : String) (columns : List (String × String)) : String :=
  "INSERT INTO " ++ tableName ++ " (" ++
    String.intercalate ", " (columns.map Prod.fst) ++ ") VALUES (" ++
    String.intercalate ", " (columns.map (fun _ => "?")) ++ ")"

/-- DatabaseManager.execute_sql on a non-bookkeeping statement: the statement
runs and is committed immediately (conn.commit() per call). -/
def execute_sql (st : DBState) (sql : String) (params : List String) : DBState :=
  { st with schema_log := st.schema_log ++ [{ sql := sql, params := params }] }

/-- MigrationExecutor._execute_change: dispatch on the change's kind tag; an
unknown kind raises ValueError (none) before any SQL is issued; every handled
kind issues exactly one committed statement. -/
def execute_change (st : DBState) : Change → Option DBState
  | .createTable t cols => some (execute_sql st (create_table_sql t cols) [])
  | .addColumn t col => some (execute_sql st (add_column_sql t col) [])
  | .dropColumn t c => some (execute_sql st (drop_column_sql t c) [])
  | .renameColumn t o n => some (execute_sql st (rename_column_sql t o n) [])
  | .createIndex i t cols => some (execute_sql st (create_index_sql i t cols) [])
  | .dropTable t => some (execute_sql st (drop_table_sql t) [])
  | .sql s => some (execute_sql st s [])
  | .insert t cols => some (execute_sql st (insert_sql t cols) (cols.map Prod.snd))
  | .unknown _ => none

/-- The sequential change loop inside the try blocks of execute_migration and
rollback_migration: changes run in order, each committing on its own; the
first raising change aborts the loop with the state committed so far. -/
def apply_changes (st : DBState) : List Change → DBState × Bool
  | [] => (st, true)
  | c :: rest =>
    match execute_change st c with
    | none => (st, false)
    | some st2 => apply_changes st2 rest

/-- Stable insertion of a ledger row into a list sorted by order_executed
ascending (ties keep their original, i.e. rowid/insertion, order — the
stable realization of the unspecified SQLite tie order). -/
def insert_by_order (r : LedgerRow) : List LedgerRow → List LedgerRow
  | [] => [r]
  | x :: xs =>
    if r.order_executed < x.order_executed then r :: x :: xs
    else x :: insert_by_order r xs

/-- Stable sort of the changelog rows by order_executed ascending (the
ORDER BY order_executed of the source's queries). -/
def sort_by_order (l : List LedgerRow) : List LedgerRow :=
  l.foldr insert_by_order []

/-- MigrationExecutor.get_executed_migrations: SELECT id FROM
DATABASECHANGELOG ORDER BY order_executed. -/
def get_executed_migrations (st : DBState) : List String :=
  (sort_by_order st.changelog).map (fun r => r.id)

/-- MigrationExecutor.execute_migration: run each change (each committing
separately); on success compute order_executed as
len(get_executed_migrations()) + 1 and INSERT the changelog row (the INSERT
raises on a duplicate primary key id, caught by the except, returning False);
any exception in the try block returns False with everything already
committed left in place. -/
def execute_migration (st : DBState) (m : Migration) (filename : String) (now : Nat) :
    DBState × Bool :=
  match apply_changes st m.changes with
  | (st2, false) => (st2, false)
  | (st2, true) =>
    if st2.changelog.any (fun r => r.id == m.id) then
      (st2, false)
    else
      ({ st2 with
          changelog := st2.changelog ++
            [{ id := m.id
               author := m.author
               filename := filename
               date_executed := now
               order_executed := (get_executed_migrations st2).length + 1
               exec_type := "EXECUTED"
               md5sum := calculate_checksum m
               description := m.description }] }, true)

/-- MigrationExecutor.rollback_migration: fail when no rollback is defined;
otherwise run the rollback changes (each committing separately) and DELETE
the changelog row by id; any exception returns False with everything already
committed left in place. -/
def rollback_migration (st : DBState) (m : Migration) : DBState × Bool :=
  if m.rollback.isEmpty then (st, false)
  else
    match apply_changes st m.rollback with
    | (st2, false) => (st2, false)
    | (st2, true) =>
      ({ st2 with changelog := st2.changelog.filter (fun r => r.id != m.id) }, true)

/-- The pending computation of the update command:
[m for m in migrations if m.id not in executed]. -/
def pending_migrations (st : DBState) (migrations : List Migration) : List Migration :=
  migrations.filter (fun m => !((get_executed_migrations st).contains m.id))

/-- The update command (after the out-of-scope file parsing): compute pending
and execute each pending migration in document order; the return value of
execute_migration is not consulted (the loop body ignores it).  The early
return when pending is empty leaves the store unchanged, as does the fold
over the empty list. -/
def update (st : DBState) (migrations : List Migration) (changelog_file : String) (now : Nat) :
    DBState :=
  (pending_migrations st migrations).foldl
    (fun s m => (execute_migration s m changelog_file now).1) st

/-- Python tail slice l[start:] with an Int start: a negative start counts
from the end (clamped at 0), a non-negative start is clamped at len(l). -/
def py_tail_slice {α : Type} (l : List α) (start : Int) : List α :=
  let n : Int := (l.length : Int)
  let i : Int := if start < 0 then max (n + start) 0 else min start n
  l.drop i.toNat

/-- The dict comprehension migrations_dict = m.id: m of the rollback command
followed by lookup: on duplicate ids the last occurrence wins. -/
def lookup_migration (migrations : List Migration) (mid : String) : Option Migration :=
  migrations.foldl (fun acc m => if m.id == mid then some m else acc) none

/-- The target list of the rollback command: to_rollback = executed[-count:]
then to_rollback.reverse(). -/
def to_rollback_ids (st : DBState) (count : Int) : List String :=
  (py_tail_slice (get_executed_migrations st) (-count)).reverse

/-- The rollback command (after the out-of-scope file parsing): for each
targeted id in reverse order, roll it back when the document has a matching
migration and silently move on otherwise; the return value of
rollback_migration is not consulted. -/
def rollback (st : DBState) (count : Int) (migrations : List Migration) : DBState :=
  (to_rollback_ids st count).foldl
    (fun s mid =>
      match lookup_migration migrations mid with
      | some m => (rollback_migration s m).1
      | none => s) st

/-- Modelled from the spec: the skippedIds field of UpdateReport (spec 6).
The source's update only prints counts and produces no structured report;
per the spec, skippedIds are the document's change sets that are skipped as
already applied — the exact complement of the source's pending filter. -/
def skipped_ids (st : DBState) (migrations : List Migration) : List String :=
  (migrations.filter (fun m => (get_executed_migrations st).contains m.id)).map
    (fun m => m.id)

/-- Fixture: migration A with one change and one rollback change. -/
def m_a : Migration :=
  { id := "A", author := "a", description := "", changes := [Change.sql "ca"],
    rollback := [Change.sql "ra"] }

/-- Fixture: migration B with one change and one rollback change. -/
def m_b : Migration :=
  { id := "B", author := "a", description := "", changes := [Change.sql "cb"],
    rollback := [Change.sql "rb"] }

/-- Fixture: migration C with one change and one rollback change. -/
def m_c : Migration :=
  { id := "C", author := "a", description := "", changes := [Change.sql "cc"],
    rollback := [Change.sql "rc"] }

/-- Fixture: migration F whose single change has an unknown kind, so its
execution fails at the first change. -/
def m_f : Migration :=
  { id := "F", author := "a", description := "", changes := [Change.unknown "bogus"],
    rollback := [] }

/-- Fixture: a change set whose first operation is fine and whose second
operation is malformed (unknown kind). -/
def m_bad2 : Migration :=
  { id := "cs1", author := "a", description := "",
    changes := [Change.sql "create table t1", Change.unknown "bogus"], rollback := [] }

/-- Fixture: change set X as originally applied (operations op1). -/
def mX : Migration :=
  { id := "X", author := "a", description := "", changes := [Change.sql "op1"],
    rollback := [Change.sql "undo1"] }

/-- Fixture: change set X as later drifted (operations op2, different
fingerprint, same rollback steps). -/
def mX2 : Migration :=
  { id := "X", author := "a", description := "", changes := [Change.sql "op2"],
    rollback := [Change.sql "undo1"] }

/-- Fixture: the store after applying X from a fresh database. -/
def stX : DBState := update init_db [mX] "f" 0

/-- Fixture: a store whose lock row is held by another process. -/
def st_locked : DBState :=
  { changelog := []
    lock_locked := true
    lock_granted := some 5
    lock_holder := some "other"
    schema_log := [] }

/-- Fixture: the store after applying A then B from a fresh database
(orders 1 and 2). -/
def st_ab : DBState := update init_db [m_a, m_b] "f" 0

/-- Fixture: st_ab after rollback count 2 against a document holding only A:
the targeted B has no definition and is silently skipped, A is rolled back,
leaving only B (order 2) in the ledger. -/
def st4b : DBState := rollback st_ab 2 [m_a]

/-- Fixture: st4b after applying C, which is assigned order_executed
len + 1 = 2, colliding with B's order 2. -/
def st4c : DBState := update st4b [m_c] "f" 1

/-- Fixture: the store after an update run over [A, F, B] where F fails:
the loop continues past F and applies B. -/
def st5 : DBState := update init_db [m_a, m_f, m_b] "f" 0

/-- Fixture: the store after applying A, B and C in that order (orders
1, 2, 3). -/
def st9 : DBState := update init_db [m_a, m_b, m_c] "f" 0

/-- Fixture: fingerprint collision, left triple (id ab, author c). -/
def m7a : Migration :=
  { id := "ab", author := "c", description := "", changes := [Change.sql "s"],
    rollback := [] }

/-- Fixture: fingerprint collision, right triple (id a, author bc) — a
different (id, author, operations) triple whose digest input coincides with
the one of m7a. -/
def m7b : Migration :=
  { id := "a", author := "bc", description := "", changes := [Change.sql "s"],
    rollback := [] }

/-- Fixture: same (id, author, operations) as mX but different description
and rollback. -/
def mX_desc : Migration :=
  { id := "X", author := "a", description := "other", changes := [Change.sql "op1"],
    rollback := [] }

/-- Executing a change never touches the DATABASECHANGELOG table: the change
loop only appends committed statements to the journal. -/
theorem apply_changes_changelog (cs : List Change) :
    ∀ st : DBState, ((apply_changes st cs).1).changelog = st.changelog := by
  induction cs with
  | nil => intro st; rfl
  | cons c rest ih =>
    intro st
    cases c <;> simp [apply_changes, execute_change, execute_sql, ih]

/-- Stable insertion grows the list by one. -/
theorem insert_by_order_length (r : LedgerRow) (l : List LedgerRow) :
    (insert_by_order r l).length = l.length + 1 := by
  induction l with
  | nil => rfl
  | cons x xs ih =>
    simp only [insert_by_order]
    split <;> simp [ih]

/-- Sorting preserves the number of ledger rows. -/
theorem sort_by_order_length (l : List LedgerRow) :
    (sort_by_order l).length = l.length := by
  induction l with
  | nil => rfl
  | cons x xs ih =>
    simp only [sort_by_order, List.foldr] at *
    rw [insert_by_order_length, ih, List.length_cons]

/-- get_executed_migrations returns one id per ledger row. -/
theorem get_executed_migrations_length (st : DBState) :
    (get_executed_migrations st).length = st.changelog.length := by
  simp [get_executed_migrations, sort_by_order_length]

/-- A migration whose execution reports success has its id recorded in the
resulting changelog. -/
theorem execute_migration_recorded (st : DBState) (m : Migration) (f : String) (now : Nat)
    (h : (execute_migration st m f now).2 = true) :
    m.id ∈ (execute_migration st m f now).1.changelog.map (fun r => r.id) := by
  unfold execute_migration at h ⊢
  rcases hA : apply_changes st m.changes with ⟨st2, b⟩
  rw [hA] at h
  cases b with
  | false => simp at h
  | true =>
    by_cases hif : st2.changelog.any (fun r => r.id == m.id) = true
    · simp only [hif] at h
      simp at h
    · simp only [Bool.not_eq_true] at hif
      simp only [hif]
      simp

/-- C1: a change set whose second operation is malformed fails (no ledger
entry is written) yet the committed effect of its first operation persists
in the store, because execute_sql commits every statement individually. -/
theorem C1_partial_commit_code_bug :
    (execute_migration init_db m_bad2 "f" 0).2 = false ∧
    (execute_migration init_db m_bad2 "f" 0).1.changelog = [] ∧
    (execute_migration init_db m_bad2 "f" 0).1.schema_log =
      [{ sql := "create table t1", params := [] }] := by decide

/-- C2: the recorded fingerprint of X differs from the drifted document's
fingerprint, yet rollback proceeds anyway: it executes X's rollback
operation and deletes X's ledger entry without any fingerprint comparison. -/
theorem C2_no_drift_check_code_bug :
    calculate_checksum mX2 ≠ calculate_checksum mX ∧
    stX.changelog.map (fun r => r.md5sum) = [calculate_checksum mX] ∧
    (rollback stX 1 [mX2]).changelog = [] ∧
    (rollback stX 1 [mX2]).schema_log =
      stX.schema_log ++ [{ sql := "undo1", params := [] }] := by decide

/-- C3: with the singleton lock row held by another process, update still
applies a migration and rollback still removes it, and neither run ever
reads or writes the lock row (locked and lockedby are untouched): the lock
is initialized but never acquired, released or checked. -/
theorem C3_lock_never_used_code_bug :
    st_locked.lock_locked = true ∧
    (update st_locked [m_a] "f" 1).changelog.map (fun r => r.id) = ["A"] ∧
    (update st_locked [m_a] "f" 1).lock_locked = true ∧
    (update st_locked [m_a] "f" 1).lock_holder = some "other" ∧
    (rollback (update st_locked [m_a] "f" 1) 1 [m_a]).changelog = [] ∧
    (rollback (update st_locked [m_a] "f" 1) 1 [m_a]).lock_locked = true := by decide

/-- C4 counterexample: after A and B are applied (orders 1 and 2) and A is
rolled back, appending C assigns order_executed = count + 1 = 2, not
max + 1 = 3, so the ledger holds B and C with the duplicate order 2. -/
theorem C4_counterexample :
    st4b.changelog.map (fun r => (r.id, r.order_executed)) = [("B", 2)] ∧
    st4c.changelog.map (fun r => (r.id, r.order_executed)) = [("B", 2), ("C", 2)] ∧
    ¬ (st4c.changelog.map (fun r => r.order_executed)).Nodup := by decide

/-- C4 amended: appending assigns executionOrder equal to the number of
existing entries plus one (count + 1, not max + 1), leaving prior rows
untouched, and removal only filters the removed id without renumbering the
remaining executionOrder values. -/
theorem C4_order_assignment_amended (st : DBState) (m : Migration) (f : String) (now : Nat) :
    ((apply_changes st m.changes).2 = true →
      st.changelog.all (fun r => r.id != m.id) = true →
      (execute_migration st m f now).1.changelog =
        st.changelog ++
          [{ id := m.id, author := m.author, filename := f, date_executed := now,
             order_executed := st.changelog.length + 1, exec_type := "EXECUTED",
             md5sum := calculate_checksum m, description := m.description }]) ∧
    (m.rollback ≠ [] → (apply_changes st m.rollback).2 = true →
      (rollback_migration st m).1.changelog = st.changelog.filter (fun r => r.id != m.id)) := by
  constructor
  · intro h1 h2
    unfold execute_migration
    rcases hA : apply_changes st m.changes with ⟨st2, b⟩
    rw [hA] at h1
    cases b with
    | false => simp at h1
    | true =>
      have hchg : st2.changelog = st.changelog := by
        have h3 := apply_changes_changelog m.changes st
        rw [hA] at h3
        exact h3
      have hany : st2.changelog.any (fun r => r.id == m.id) = false := by
        rw [hchg, List.any_eq_false]
        intro r hr
        have h4 := (List.all_eq_true.mp h2) r hr
        simpa using h4
      simp only [hany]
      simp [get_executed_migrations_length, hchg]
  · intro h1 h2
    unfold rollback_migration
    have hne : m.rollback.isEmpty = false := by
      simpa [List.isEmpty_iff] using h1
    rw [hne]
    rcases hA : apply_changes st m.rollback with ⟨st2, b⟩
    rw [hA] at h2
    cases b with
    | false => simp at h2
    | true =>
      have hchg : st2.changelog = st.changelog := by
        have h3 := apply_changes_changelog m.rollback st
        rw [hA] at h3
        exact h3
      simp [hchg]

/-- C4 witness: the amended theorem applied to a fresh database and the
fixture migration A. -/
theorem C4_order_assignment_witness :
    (execute_migration init_db m_a "g" 3).1.changelog =
      init_db.changelog ++
        [{ id := m_a.id, author := m_a.author, filename := "g", date_executed := 3,
           order_executed := init_db.changelog.length + 1, exec_type := "EXECUTED",
           md5sum := calculate_checksum m_a, description := m_a.description }] ∧
    (rollback_migration init_db m_a).1.changelog =
      init_db.changelog.filter (fun r => r.id != m_a.id) := by
  have h := C4_order_assignment_amended init_db m_a "g" 3
  exact ⟨h.1 (by decide) (by decide), h.2 (by decide) (by decide)⟩

/-- C5 counterexample: in a run over [A, F, B] where F's execution fails,
the loop continues and B — a change set after the first failing one — is
applied and recorded, refuting the stop-at-first-failure claim. -/
theorem C5_counterexample :
    (execute_migration (execute_migration init_db m_a "f" 0).1 m_f "f" 0).2 = false ∧
    get_executed_migrations st5 = ["A", "B"] ∧
    "B" ∈ get_executed_migrations st5 := by decide

/-- C5 amended: update does not stop at a failing change set: every pending
change set is attempted in document order regardless of earlier failures,
and a later change set that succeeds is applied and recorded while the
failing one is not. -/
theorem C5_continue_past_failure_amended (st : DBState) (mf m2 : Migration)
    (f : String) (now : Nat)
    (hp1 : mf.id ∉ get_executed_migrations st)
    (hp2 : m2.id ∉ get_executed_migrations st)
    (hfail : (execute_migration st mf f now).2 = false)
    (hok : (execute_migration (execute_migration st mf f now).1 m2 f now).2 = true) :
    update st [mf, m2] f now =
      (execute_migration (execute_migration st mf f now).1 m2 f now).1 ∧
    m2.id ∈ (update st [mf, m2] f now).changelog.map (fun r => r.id) := by
  have hpend : pending_migrations st [mf, m2] = [mf, m2] := by
    simp [pending_migrations, hp1, hp2]
  have hupd : update st [mf, m2] f now =
      (execute_migration (execute_migration st mf f now).1 m2 f now).1 := by
    unfold update
    rw [hpend]
    rfl
  refine ⟨hupd, ?_⟩
  rw [hupd]
  exact execute_migration_recorded _ _ _ _ hok

/-- C5 witness: the amended theorem applied to a fresh database, the failing
fixture F and the succeeding fixture B. -/
theorem C5_continue_past_failure_witness :
    update init_db [m_f, m_b] "f" 0 =
      (execute_migration (execute_migration init_db m_f "f" 0).1 m_b "f" 0).1 ∧
    m_b.id ∈ (update init_db [m_f, m_b] "f" 0).changelog.map (fun r => r.id) :=
  C5_continue_past_failure_amended init_db m_f m_b "f" 0
    (by decide) (by decide) (by decide) (by decide)

/-- C6 counterexample: with A and B applied and a document holding only A,
rollback count 2 targets [B, A]; B has no matching change set, yet the run
does not fail and does not stop: B is silently skipped (left in the ledger)
and the later target A is still processed and rolled back. -/
theorem C6_counterexample :
    to_rollback_ids st_ab 2 = ["B", "A"] ∧
    lookup_migration [m_a] "B" = none ∧
    (rollback st_ab 2 [m_a]).changelog.map (fun r => r.id) = ["B"] ∧
    (rollback st_ab 2 [m_a]).schema_log =
      st_ab.schema_log ++ [{ sql := "ra", params := [] }] := by decide

/-- C6 amended: a targeted ledger entry whose id has no matching change set
in the supplied document is silently skipped — no failure is raised, the
entry stays in the ledger, the state is unchanged for it — and processing
continues with the remaining targeted entries. -/
theorem C6_missing_defn_skipped_amended (st : DBState) (migrations : List Migration)
    (count : Int) (t1 t2 : String) (m2 : Migration)
    (htargets : to_rollback_ids st count = [t1, t2])
    (h1 : lookup_migration migrations t1 = none)
    (h2 : lookup_migration migrations t2 = some m2) :
    rollback st count migrations = (rollback_migration st m2).1 := by
  unfold rollback
  rw [htargets]
  simp [h1, h2]

/-- C6 witness: the amended theorem applied to the store with A and B
applied and the document holding only A. -/
theorem C6_missing_defn_skipped_witness :
    rollback st_ab 2 [m_a] = (rollback_migration st_ab m_a).1 :=
  C6_missing_defn_skipped_amended st_ab [m_a] 2 "B" "A" m_a
    (by decide) (by decide) (by decide)

/-- C7 counterexample: two change sets whose (id, author, operations)
triples differ (different id and different author) have the same digest
input — the concatenation id + author + serialized operations has no
separators — and hence the same fingerprint. -/
theorem C7_counterexample :
    calculate_checksum m7a = calculate_checksum m7b ∧
    m7a.id ≠ m7b.id ∧ m7a.author ≠ m7b.author ∧ m7a.changes = m7b.changes := by decide

/-- C7 amended: the fingerprint is computed from exactly (id, author,
operations) — equal triples always give equal fingerprints — but a
difference in a component does not guarantee a different fingerprint,
since the unseparated concatenation can coincide for distinct triples. -/
theorem C7_fingerprint_of_triple_amended (m1 m2 : Migration)
    (hid : m1.id = m2.id) (hauthor : m1.author = m2.author)
    (hchanges : m1.changes = m2.changes) :
    calculate_checksum m1 = calculate_checksum m2 := by
  unfold calculate_checksum
  rw [hid, hauthor, hchanges]

/-- C7 witness: two migrations agreeing on (id, author, operations) but
differing in description and rollback have equal fingerprints. -/
theorem C7_fingerprint_of_triple_witness :
    calculate_checksum mX = calculate_checksum mX_desc :=
  C7_fingerprint_of_triple_amended mX mX_desc rfl rfl rfl

/-- C8: update is idempotent over a fixed document: when every change set of
the document is applied after the first run, the second run has an empty
pending list (zero new change sets), leaves the store exactly as it was,
and the skipped ids are all of the document's ids. -/
theorem C8_update_idempotent (st : DBState) (migrations : List Migration)
    (f : String) (now1 now2 : Nat)
    (happlied : ∀ m ∈ migrations,
      m.id ∈ get_executed_migrations (update st migrations f now1)) :
    pending_migrations (update st migrations f now1) migrations = [] ∧
    update (update st migrations f now1) migrations f now2 =
      update st migrations f now1 ∧
    skipped_ids (update st migrations f now1) migrations =
      migrations.map (fun m => m.id) := by
  have hpend : pending_migrations (update st migrations f now1) migrations = [] := by
    simp only [pending_migrations, List.filter_eq_nil_iff]
    intro m hm
    simp [happlied m hm]
  refine ⟨hpend, ?_, ?_⟩
  · have hdef : update (update st migrations f now1) migrations f now2 =
        (pending_migrations (update st migrations f now1) migrations).foldl
          (fun s m => (execute_migration s m f now2).1) (update st migrations f now1) := rfl
    rw [hdef, hpend]
    rfl
  · unfold skipped_ids
    congr 1
    rw [List.filter_eq_self]
    intro m hm
    simpa using happlied m hm

/-- C8 witness: the idempotence theorem applied to a fresh database and the
one-migration document [A]. -/
theorem C8_update_idempotent_witness :
    pending_migrations (update init_db [m_a] "f" 0) [m_a] = [] ∧
    update (update init_db [m_a] "f" 0) [m_a] "f" 1 = update init_db [m_a] "f" 0 ∧
    skipped_ids (update init_db [m_a] "f" 0) [m_a] = [m_a].map (fun m => m.id) :=
  C8_update_idempotent init_db [m_a] "f" 0 1 (by decide)

/-- C9: with three entries applied in orders 1, 2, 3 (executed list
[a, b, c]), rollback count 2 targets [c, b] — executionOrder descending,
irrespective of the supplied document's order — and the run rolls back c
first and then b. -/
theorem C9_rollback_order (st : DBState) (doc : List Migration) (a b c : String)
    (mb mc : Migration)
    (hexec : get_executed_migrations st = [a, b, c])
    (hc : lookup_migration doc c = some mc)
    (hb : lookup_migration doc b = some mb) :
    to_rollback_ids st 2 = [c, b] ∧
    rollback st 2 doc = (rollback_migration (rollback_migration st mc).1 mb).1 := by
  have h1 : to_rollback_ids st 2 = [c, b] := by
    simp [to_rollback_ids, py_tail_slice, hexec]
  refine ⟨h1, ?_⟩
  unfold rollback
  rw [h1]
  simp [hc, hb]

/-- C9 witness: the ordering theorem applied to the store with A, B, C
applied in that order and a scrambled document [C, A, B]. -/
theorem C9_rollback_order_witness :
    to_rollback_ids st9 2 = ["C", "B"] ∧
    rollback st9 2 [m_c, m_a, m_b] =
      (rollback_migration (rollback_migration st9 m_c).1 m_b).1 :=
  C9_rollback_order st9 [m_c, m_a, m_b] "A" "B" "C" m_b m_c
    (by decide) (by decide) (by decide)

/-- C10: rollback with count = 0 targets the entire applied list (most
recent first) rather than zero entries, because the tail slice
executed[-0:] denotes the whole list; on a non-empty ledger the target
list is non-empty. -/
theorem C10_count_zero_targets_all (st : DBState)
    (h : get_executed_migrations st ≠ []) :
    to_rollback_ids st 0 = (get_executed_migrations st).reverse ∧
    to_rollback_ids st 0 ≠ [] := by
  have h1 : to_rollback_ids st 0 = (get_executed_migrations st).reverse := by
    have hmin : min (0 : Int) ((get_executed_migrations st).length : Int) = 0 :=
      min_eq_left (Int.ofNat_nonneg _)
    simp [to_rollback_ids, py_tail_slice, hmin]
  refine ⟨h1, ?_⟩
  rw [h1]
  simpa using h

/-- C10 witness: the count-zero theorem applied to the store with X
applied. -/
theorem C10_count_zero_targets_all_witness :
    to_rollback_ids stX 0 = (get_executed_migrations stX).reverse ∧
    to_rollback_ids stX 0 ≠ [] :=
  C10_count_zero_targets_all stX (by decide)
